import Mathlib

/-!
# Verification of the observable stream matcher (`src/lib/match-obs.ts`)

Shallow embedding of `matchObservable`. The TypeScript function subscribes to an
observable and drives a cursor (`expectedStep`) through an expected-values array
as `next`/`error`/`complete` events arrive, settling a promise exactly once via
`finalize`.

The embedding models:
* the invocation configuration (`Config`): expected values, the two termination
  flags, the comparator (`matcher`) and the value printer;
* the mutable closure state (`MatchState`): the cursor `expectedStep`, the list
  of promise settlements performed so far (`settlements`, where `none` stands
  for `resolve()` and `some msg` for `reject(msg)`), and the number of
  unsubscribe calls scheduled via `setTimeout(..., 0)` (`unsubsScheduled`);
* the three subscription handlers `next`/`error`/`complete` and `finalize` as
  state transformers, and `run` as the processing of an arbitrary finite list
  of stream events from the initial state.

Settlements are accumulated in a list (rather than an `Option`) so that
"the deferred result settles at most once" is a provable statement about the
model instead of being baked into it.
-/

namespace MatchObs

/-- The arguments of `matchObservable` that the handlers close over (the
observable itself is replaced by the list of events fed to `run`). -/
structure Config (T : Type) where
  values : List T
  expectComplete : Bool
  expectError : Bool
  matcher : T → T → Bool
  valuePrinter : T → String

/-- The mutable state of one `matchObs` closure. `expectedStep` is the cursor
(`-1` is the finalized sentinel). `settlements` records every `resolve`
(`none`) or `reject msg` (`some msg`) performed, in order. `unsubsScheduled`
counts the `setTimeout(() => subs.unsubscribe(), 0)` calls made. -/
structure MatchState where
  expectedStep : Int
  settlements : List (Option String)
  unsubsScheduled : Nat
deriving DecidableEq, Repr

/-- The three kinds of event an observable delivers to its subscriber; an
error is modelled by its description string (`err.toString()`). -/
inductive Event (T : Type) where
  | next (v : T)
  | error (err : String)
  | complete
deriving DecidableEq, Repr

/-- Message built by the value handler when the cursor is already past the
expected values: `'Too many values on observable: ' + valuePrinter(value)`. -/
def tooManyMsg {T : Type} (cfg : Config T) (value : T) : String :=
  "Too many values on observable: " ++ cfg.valuePrinter value

/-- Message built by the value handler on a comparator mismatch at cursor `i`. -/
def mismatchMsg {T : Type} (cfg : Config T) (i : Int) (value expected : T) : String :=
  "Values at index " ++ toString i ++ " are expected to match. Received:\n"
    ++ cfg.valuePrinter value ++ "\nExpected:\n" ++ cfg.valuePrinter expected

/-- Message built by the error handler when the error is not acceptable. -/
def erroredMsg (i : Int) (err : String) : String :=
  "Observable errored unexpectedly before emission index " ++ toString i
    ++ ". Error: " ++ err

/-- Message built by the completion handler when the cursor is not at
`values.length`; the wording distinguishes `cursor < length` from the
defensive `cursor > length` case. -/
def completedMsg {T : Type} (cfg : Config T) (i : Int) : String :=
  "Observable completed unexpectedly after " ++ toString i
    ++ " value emissions. "
    ++ (if i < (cfg.values.length : Int) then "Missing values from observable."
        else "Too many values on observable.")

/-- `finalize(message?)`: invalidates the cursor (set to `-1`), schedules one
asynchronous unsubscribe, and settles the promise — `reject(message)` when a
message is given, `resolve()` otherwise. -/
def finalize (message : Option String) (s : MatchState) : MatchState :=
  { expectedStep := -1
    unsubsScheduled := s.unsubsScheduled + 1
    settlements := s.settlements ++ [message] }

/-- The `next(value)` subscription handler. Ignores the event when finalized;
fails on a value past the expected list or on a comparator mismatch; otherwise
advances the cursor and, when neither termination flag is set and the cursor
has just reached `values.length`, declares success immediately.

The inner `Option.match` on the list lookup is total bookkeeping only: when
this branch runs, `0 ≤ expectedStep < values.length`, so the lookup succeeds
(the `none` arm is unreachable; the source's `values[expectedStep]`). -/
def next {T : Type} (cfg : Config T) (value : T) (s : MatchState) : MatchState :=
  if s.expectedStep = -1 then s
  else if (cfg.values.length : Int) ≤ s.expectedStep then
    finalize (some (tooManyMsg cfg value)) s
  else
    match cfg.values.get? s.expectedStep.toNat with
    | none => s
    | some expected =>
      if cfg.matcher value expected = false then
        finalize (some (mismatchMsg cfg s.expectedStep value expected)) s
      else
        let s1 : MatchState := { s with expectedStep := s.expectedStep + 1 }
        if cfg.expectComplete = false ∧ cfg.expectError = false
            ∧ s1.expectedStep = (cfg.values.length : Int) then
          finalize none s1
        else s1

/-- The `error(err)` subscription handler. Ignores the event when finalized;
succeeds when an error was expected and all values were matched; fails
otherwise. -/
def error {T : Type} (cfg : Config T) (err : String) (s : MatchState) : MatchState :=
  if s.expectedStep = -1 then s
  else if cfg.expectError = true ∧ s.expectedStep = (cfg.values.length : Int) then
    finalize none s
  else
    finalize (some (erroredMsg s.expectedStep err)) s

/-- The `complete()` subscription handler. Ignores the event when finalized;
succeeds when the cursor is exactly at `values.length` (no flag is consulted);
fails otherwise. -/
def complete {T : Type} (cfg : Config T) (s : MatchState) : MatchState :=
  if s.expectedStep = -1 then s
  else if s.expectedStep = (cfg.values.length : Int) then
    finalize none s
  else
    finalize (some (completedMsg cfg s.expectedStep)) s

/-- Dispatch one stream event to the corresponding handler. -/
def step {T : Type} (cfg : Config T) (s : MatchState) : Event T → MatchState
  | Event.next v => next cfg v s
  | Event.error e => error cfg e s
  | Event.complete => complete cfg s

/-- The state of a fresh `matchObs` closure: cursor `0`, promise unsettled, no
unsubscribe scheduled. -/
def initState : MatchState :=
  { expectedStep := 0, settlements := [], unsubsScheduled := 0 }

/-- Process a list of events starting from an arbitrary state. -/
def runFrom {T : Type} (cfg : Config T) (s : MatchState) (evs : List (Event T)) : MatchState :=
  evs.foldl (step cfg) s

/-- Process a list of events from the initial state: the matcher's observable
behaviour on a stream delivering exactly those events in that order. -/
def run {T : Type} (cfg : Config T) (evs : List (Event T)) : MatchState :=
  runFrom cfg initState evs

/-- The state invariant maintained by every handler: a reachable state is
either finalized (cursor `-1`, promise settled exactly once, one unsubscribe
scheduled) or live (cursor within `0..values.length`, promise unsettled, no
unsubscribe scheduled). -/
def Inv {T : Type} (cfg : Config T) (s : MatchState) : Prop :=
  (s.expectedStep = -1 ∧ s.settlements.length = 1 ∧ s.unsubsScheduled = 1)
    ∨ (0 ≤ s.expectedStep ∧ s.expectedStep ≤ (cfg.values.length : Int)
        ∧ s.settlements = [] ∧ s.unsubsScheduled = 0)

/-- A concrete configuration over `Nat` matching the source's defaults:
strict-equality comparator (`===` becomes `==`) and `toString` printing;
used to instantiate the general theorems at concrete inputs. -/
def natCfg (vals : List Nat) (ec ee : Bool) : Config Nat :=
  { values := vals, expectComplete := ec, expectError := ee,
    matcher := fun a b => a == b, valuePrinter := fun v => toString v }

/-- A live matcher state with the cursor at `k`, nothing settled and no
unsubscribe scheduled; used to instantiate the handler-level theorems. -/
def stateAt (k : Int) : MatchState :=
  { expectedStep := k, settlements := [], unsubsScheduled := 0 }

/-! ## Handler characterization lemmas -/

variable {T : Type}

theorem next_finalized (cfg : Config T) (v : T) (s : MatchState)
    (h : s.expectedStep = -1) : next cfg v s = s := by
  simp [next, h]

theorem error_finalized (cfg : Config T) (err : String) (s : MatchState)
    (h : s.expectedStep = -1) : error cfg err s = s := by
  simp [error, h]

theorem complete_finalized (cfg : Config T) (s : MatchState)
    (h : s.expectedStep = -1) : complete cfg s = s := by
  simp [complete, h]

theorem step_finalized (cfg : Config T) (s : MatchState) (ev : Event T)
    (h : s.expectedStep = -1) : step cfg s ev = s := by
  cases ev <;> simp [step, next, error, complete, h]

theorem next_tooMany (cfg : Config T) (v : T) (s : MatchState)
    (h1 : s.expectedStep ≠ -1) (h2 : (cfg.values.length : Int) ≤ s.expectedStep) :
    next cfg v s = finalize (some (tooManyMsg cfg v)) s := by
  rw [next, if_neg h1, if_pos h2]

theorem next_mismatch (cfg : Config T) (v : T) (s : MatchState) (e : T)
    (h1 : s.expectedStep ≠ -1) (h2 : ¬ ((cfg.values.length : Int) ≤ s.expectedStep))
    (he : cfg.values.get? s.expectedStep.toNat = some e)
    (hm : cfg.matcher v e = false) :
    next cfg v s = finalize (some (mismatchMsg cfg s.expectedStep v e)) s := by
  rw [next, if_neg h1, if_neg h2, he]
  simp [hm]

theorem next_matched (cfg : Config T) (v : T) (s : MatchState) (e : T)
    (h1 : s.expectedStep ≠ -1) (h2 : ¬ ((cfg.values.length : Int) ≤ s.expectedStep))
    (he : cfg.values.get? s.expectedStep.toNat = some e)
    (hm : cfg.matcher v e = true)
    (hno : ¬ (cfg.expectComplete = false ∧ cfg.expectError = false
      ∧ s.expectedStep + 1 = (cfg.values.length : Int))) :
    next cfg v s = { s with expectedStep := s.expectedStep + 1 } := by
  rw [next, if_neg h1, if_neg h2, he]
  simp [hm, hno]

theorem next_matched_success (cfg : Config T) (v : T) (s : MatchState) (e : T)
    (h1 : s.expectedStep ≠ -1) (h2 : ¬ ((cfg.values.length : Int) ≤ s.expectedStep))
    (he : cfg.values.get? s.expectedStep.toNat = some e)
    (hm : cfg.matcher v e = true)
    (hyes : cfg.expectComplete = false ∧ cfg.expectError = false
      ∧ s.expectedStep + 1 = (cfg.values.length : Int)) :
    next cfg v s = finalize none { s with expectedStep := s.expectedStep + 1 } := by
  rw [next, if_neg h1, if_neg h2, he]
  simp [hm, hyes]

theorem error_success (cfg : Config T) (err : String) (s : MatchState)
    (h1 : s.expectedStep ≠ -1)
    (h2 : cfg.expectError = true ∧ s.expectedStep = (cfg.values.length : Int)) :
    error cfg err s = finalize none s := by
  rw [error, if_neg h1, if_pos h2]

theorem error_failure (cfg : Config T) (err : String) (s : MatchState)
    (h1 : s.expectedStep ≠ -1)
    (h2 : ¬ (cfg.expectError = true ∧ s.expectedStep = (cfg.values.length : Int))) :
    error cfg err s = finalize (some (erroredMsg s.expectedStep err)) s := by
  rw [error, if_neg h1, if_neg h2]

theorem complete_success (cfg : Config T) (s : MatchState)
    (h1 : s.expectedStep ≠ -1) (h2 : s.expectedStep = (cfg.values.length : Int)) :
    complete cfg s = finalize none s := by
  rw [complete, if_neg h1, if_pos h2]

theorem complete_failure (cfg : Config T) (s : MatchState)
    (h1 : s.expectedStep ≠ -1) (h2 : s.expectedStep ≠ (cfg.values.length : Int)) :
    complete cfg s = finalize (some (completedMsg cfg s.expectedStep)) s := by
  rw [complete, if_neg h1, if_neg h2]

theorem step_next (cfg : Config T) (s : MatchState) (v : T) :
    step cfg s (Event.next v) = next cfg v s := rfl

theorem step_error (cfg : Config T) (s : MatchState) (err : String) :
    step cfg s (Event.error err) = error cfg err s := rfl

theorem step_complete (cfg : Config T) (s : MatchState) :
    step cfg s Event.complete = complete cfg s := rfl

theorem runFrom_nil (cfg : Config T) (s : MatchState) : runFrom cfg s [] = s := rfl

theorem runFrom_cons (cfg : Config T) (s : MatchState) (ev : Event T) (evs : List (Event T)) :
    runFrom cfg s (ev :: evs) = runFrom cfg (step cfg s ev) evs := rfl

theorem runFrom_append (cfg : Config T) (s : MatchState) (l l' : List (Event T)) :
    runFrom cfg s (l ++ l') = runFrom cfg (runFrom cfg s l) l' :=
  List.foldl_append _ _ _ _

/-! ## The reachability invariant

Every reachable state is either finalized (cursor `-1`, promise settled exactly
once, exactly one unsubscribe scheduled) or live (cursor between `0` and
`values.length`, promise unsettled, no unsubscribe scheduled). -/

theorem inv_finalize (cfg : Config T) (msg : Option String) (s : MatchState)
    (hs : s.settlements = []) (hu : s.unsubsScheduled = 0) :
    Inv cfg (finalize msg s) :=
  Or.inl ⟨rfl, by simp [finalize, hs], by simp [finalize, hu]⟩

theorem inv_next (cfg : Config T) (v : T) (s : MatchState) (h : Inv cfg s) :
    Inv cfg (next cfg v s) := by
  by_cases hfin : s.expectedStep = -1
  · rw [next_finalized cfg v s hfin]; exact h
  rcases h with ⟨h1, _⟩ | ⟨h0, hle, hs, hu⟩
  · exact absurd h1 hfin
  by_cases h2 : (cfg.values.length : Int) ≤ s.expectedStep
  · rw [next_tooMany cfg v s hfin h2]; exact inv_finalize cfg _ s hs hu
  have hklen : s.expectedStep.toNat < cfg.values.length := by omega
  obtain ⟨e, he⟩ : ∃ e, cfg.values.get? s.expectedStep.toNat = some e :=
    ⟨_, List.get?_eq_get hklen⟩
  by_cases hm : cfg.matcher v e = false
  · rw [next_mismatch cfg v s e hfin h2 he hm]; exact inv_finalize cfg _ s hs hu
  have hm' : cfg.matcher v e = true := by
    revert hm; cases cfg.matcher v e <;> simp
  by_cases hearly : cfg.expectComplete = false ∧ cfg.expectError = false
      ∧ s.expectedStep + 1 = (cfg.values.length : Int)
  · rw [next_matched_success cfg v s e hfin h2 he hm' hearly]
    exact inv_finalize cfg _ _ hs hu
  · rw [next_matched cfg v s e hfin h2 he hm' hearly]
    refine Or.inr ⟨?_, ?_, hs, hu⟩ <;> simp <;> omega

theorem inv_error (cfg : Config T) (err : String) (s : MatchState) (h : Inv cfg s) :
    Inv cfg (error cfg err s) := by
  by_cases hfin : s.expectedStep = -1
  · rw [error_finalized cfg err s hfin]; exact h
  rcases h with ⟨h1, _⟩ | ⟨h0, hle, hs, hu⟩
  · exact absurd h1 hfin
  by_cases h2 : cfg.expectError = true ∧ s.expectedStep = (cfg.values.length : Int)
  · rw [error_success cfg err s hfin h2]; exact inv_finalize cfg _ s hs hu
  · rw [error_failure cfg err s hfin h2]; exact inv_finalize cfg _ s hs hu

theorem inv_complete (cfg : Config T) (s : MatchState) (h : Inv cfg s) :
    Inv cfg (complete cfg s) := by
  by_cases hfin : s.expectedStep = -1
  · rw [complete_finalized cfg s hfin]; exact h
  rcases h with ⟨h1, _⟩ | ⟨h0, hle, hs, hu⟩
  · exact absurd h1 hfin
  by_cases h2 : s.expectedStep = (cfg.values.length : Int)
  · rw [complete_success cfg s hfin h2]; exact inv_finalize cfg _ s hs hu
  · rw [complete_failure cfg s hfin h2]; exact inv_finalize cfg _ s hs hu

theorem inv_step (cfg : Config T) (s : MatchState) (ev : Event T) (h : Inv cfg s) :
    Inv cfg (step cfg s ev) := by
  cases ev with
  | next v => exact inv_next cfg v s h
  | error err => exact inv_error cfg err s h
  | complete => exact inv_complete cfg s h

theorem inv_runFrom (cfg : Config T) (evs : List (Event T)) (s : MatchState)
    (h : Inv cfg s) : Inv cfg (runFrom cfg s evs) := by
  induction evs generalizing s with
  | nil => exact h
  | cons ev evs ih => exact ih (step cfg s ev) (inv_step cfg s ev h)

theorem inv_initState (cfg : Config T) : Inv cfg initState :=
  Or.inr ⟨le_refl 0, by simp [initState], rfl, rfl⟩

theorem inv_run (cfg : Config T) (evs : List (Event T)) : Inv cfg (run cfg evs) :=
  inv_runFrom cfg evs initState (inv_initState cfg)

/-! ## Runs over matching value prefixes

Feeding a list `l` of values that all satisfy the comparator against the
corresponding expected values moves the cursor forward by `l.length` and has
no other effect, provided no early success fires along the way (a termination
flag is set, or the cursor stays strictly below `values.length`). -/

theorem runFrom_nexts (cfg : Config T) (l : List T) (k : Nat) (s : MatchState)
    (hs : s.expectedStep = (k : Int))
    (hk : k + l.length ≤ cfg.values.length)
    (hmatch : ∀ j w e, l.get? j = some w → cfg.values.get? (k + j) = some e →
      cfg.matcher w e = true)
    (hnoearly : cfg.expectComplete = true ∨ cfg.expectError = true
      ∨ k + l.length < cfg.values.length) :
    runFrom cfg s (l.map Event.next) =
      { s with expectedStep := ((k + l.length : Nat) : Int) } := by
  induction l generalizing s k with
  | nil =>
    simp only [List.map_nil, runFrom_nil, List.length_nil, Nat.add_zero]
    cases s
    simp_all
  | cons a t ih =>
    simp only [List.map_cons, runFrom_cons, List.length_cons]
    simp only [List.length_cons] at hk hnoearly
    have h1 : s.expectedStep ≠ -1 := by rw [hs]; omega
    have h2 : ¬ ((cfg.values.length : Int) ≤ s.expectedStep) := by rw [hs]; omega
    have htn : s.expectedStep.toNat = k := by omega
    have hklen : k < cfg.values.length := by omega
    obtain ⟨e, he⟩ : ∃ e, cfg.values.get? k = some e := ⟨_, List.get?_eq_get hklen⟩
    have he' : cfg.values.get? s.expectedStep.toNat = some e := by rw [htn]; exact he
    have hme : cfg.matcher a e = true := hmatch 0 a e rfl (by simpa using he)
    have hno : ¬ (cfg.expectComplete = false ∧ cfg.expectError = false
        ∧ s.expectedStep + 1 = (cfg.values.length : Int)) := by
      rintro ⟨hc, he2, hlen⟩
      rcases hnoearly with h | h | h
      · rw [h] at hc; cases hc
      · rw [h] at he2; cases he2
      · omega
    have hs1 : step cfg s (Event.next a) = { s with expectedStep := s.expectedStep + 1 } := by
      show next cfg a s = _
      exact next_matched cfg a s e h1 h2 he' hme hno
    rw [hs1]
    have harr : k + (t.length + 1) = (k + 1) + t.length := by omega
    rw [harr]
    have hmatch' : ∀ j w e2, t.get? j = some w → cfg.values.get? ((k + 1) + j) = some e2 →
        cfg.matcher w e2 = true := by
      intro j w e2 hw he2
      apply hmatch (j + 1) w e2 (by simpa using hw)
      have hjk : k + (j + 1) = (k + 1) + j := by omega
      rw [hjk]
      exact he2
    have hnoearly' : cfg.expectComplete = true ∨ cfg.expectError = true
        ∨ (k + 1) + t.length < cfg.values.length := by
      rcases hnoearly with h | h | h
      · exact Or.inl h
      · exact Or.inr (Or.inl h)
      · exact Or.inr (Or.inr (by omega))
    exact ih (k + 1) { s with expectedStep := s.expectedStep + 1 }
      (by simp [hs]) (by omega) hmatch' hnoearly'

/-- Shared success scenario: when some termination flag is set (so no early
success fires) and the comparator accepts every expected value against itself,
feeding exactly the expected values followed by a completion resolves the
promise. -/
theorem run_values_then_complete (cfg : Config T)
    (hflag : cfg.expectComplete = true ∨ cfg.expectError = true)
    (hm : ∀ j v, cfg.values.get? j = some v → cfg.matcher v v = true) :
    (run cfg (cfg.values.map Event.next ++ [Event.complete])).settlements = [none] := by
  have hnexts := runFrom_nexts cfg cfg.values 0 initState rfl (by simp)
    (by
      intro j w e hw he
      rw [Nat.zero_add, hw] at he
      cases he
      exact hm j w hw)
    (hflag.imp_right Or.inl)
  rw [run, runFrom_append, hnexts, runFrom_cons, runFrom_nil, step_complete]
  have hstep : (({ initState with
        expectedStep := ((0 + cfg.values.length : Nat) : Int) } : MatchState).expectedStep)
      = (cfg.values.length : Int) := by simp
  rw [complete_success cfg _ (by rw [hstep]; omega) hstep]
  simp [finalize, initState]

/-! ## The claims -/

/-- Claim C9 (confirmed): in every state reachable from the initial state by
any finite sequence of events, the cursor is either `-1` or lies between `0`
and `values.length` inclusive; in particular the cursor is never strictly
greater than `values.length`, so the completion handler's defensive
`cursor > length` wording is unreachable. -/
theorem claim9_cursor_range (cfg : Config T) (evs : List (Event T)) :
    (run cfg evs).expectedStep = -1
      ∨ (0 ≤ (run cfg evs).expectedStep
          ∧ (run cfg evs).expectedStep ≤ (cfg.values.length : Int)) := by
  rcases inv_run cfg evs with ⟨h, _⟩ | ⟨h0, hle, _⟩
  · exact Or.inl h
  · exact Or.inr ⟨h0, hle⟩

/-- Claim C3 (confirmed): once the cursor is `-1`, every handler ignores the
event entirely (no comparator call, no message, no settlement — the state is
unchanged); every reachable state carries at most one settlement of the
deferred result; and `finalize` leaves the cursor at `-1`, so re-entrant
events delivered after a settlement observe the finalized state. -/
theorem claim3_guard_single_settlement (cfg : Config T) (evs : List (Event T)) :
    (∀ (s : MatchState) (ev : Event T),
        step cfg { s with expectedStep := -1 } ev = { s with expectedStep := -1 })
      ∧ (run cfg evs).settlements.length ≤ 1
      ∧ (∀ msg s, (finalize msg s).expectedStep = -1) := by
  refine ⟨fun s ev => step_finalized cfg _ ev rfl, ?_, fun msg s => rfl⟩
  rcases inv_run cfg evs with ⟨_, h, _⟩ | ⟨_, _, h, _⟩ <;> simp [h]

/-- Claim C10 (confirmed): along every run, exactly one asynchronous
unsubscribe is scheduled when the matcher has finalized and none is scheduled
while it is live; and each `finalize` call schedules exactly one unsubscribe. -/
theorem claim10_unsubscribe_once (cfg : Config T) (evs : List (Event T)) :
    ((run cfg evs).unsubsScheduled
        = if (run cfg evs).expectedStep = -1 then 1 else 0)
      ∧ (∀ msg s, (finalize msg s).unsubsScheduled = s.unsubsScheduled + 1) := by
  refine ⟨?_, fun msg s => rfl⟩
  rcases inv_run cfg evs with ⟨hf, _, hu⟩ | ⟨h0, _, _, hu⟩
  · simp [hf, hu]
  · rw [if_neg (by omega)]
    exact hu

/-- Claim C4 (confirmed): with the default flags (`expectComplete = true`,
`expectError = false`), a stream that emits exactly the expected values in
order (each accepted by the comparator) and then completes normally makes the
matcher succeed: the deferred result resolves, and only once. -/
theorem claim4_default_flags_success (cfg : Config T)
    (hc : cfg.expectComplete = true) (_he : cfg.expectError = false)
    (hm : ∀ j v, cfg.values.get? j = some v → cfg.matcher v v = true) :
    (run cfg (cfg.values.map Event.next ++ [Event.complete])).settlements = [none] :=
  run_values_then_complete cfg (Or.inl hc) hm

/-- Witness for C4: the spec's concrete scenario — `S = [1, 2, 3]`, stream
emits `1, 2, 3` then completes, default flags — resolves cleanly. -/
theorem claim4_default_flags_success_witness :
    (run (natCfg [1, 2, 3] true false)
        ((natCfg [1, 2, 3] true false).values.map Event.next ++ [Event.complete])).settlements
      = [none] :=
  claim4_default_flags_success (natCfg [1, 2, 3] true false) rfl rfl
    (by intro j v hv; simp [natCfg])

/-- Counterexample to claim C1: with `expectError = true` and
`expectComplete = false`, a stream that emits exactly `S = [1]` and then
completes normally does NOT make the matcher fail — the deferred result
resolves (`[none]` is a single `resolve()` settlement): the completion
handler accepts any completion at `cursor = values.length` without consulting
the flags. -/
theorem claim1_counterexample :
    (run (natCfg [1] false true) [Event.next 1, Event.complete]).settlements = [none]
      ∧ (run (natCfg [1] false true) [Event.next 1, Event.complete]).expectedStep = -1 := by
  constructor <;> rfl

/-- Claim C1 (corrected): with `expectError = true` and
`expectComplete = false`, a stream that emits exactly the expected values and
then completes normally makes the matcher SUCCEED — completion with the cursor
at `values.length` is always accepted, whatever the flags. -/
theorem claim1_amended_completion_accepted (cfg : Config T)
    (_hc : cfg.expectComplete = false) (he : cfg.expectError = true)
    (hm : ∀ j v, cfg.values.get? j = some v → cfg.matcher v v = true) :
    (run cfg (cfg.values.map Event.next ++ [Event.complete])).settlements = [none] :=
  run_values_then_complete cfg (Or.inr he) hm

/-- Witness for the amended C1 at `S = [1]`. -/
theorem claim1_amended_completion_accepted_witness :
    (run (natCfg [1] false true)
        ((natCfg [1] false true).values.map Event.next ++ [Event.complete])).settlements
      = [none] :=
  claim1_amended_completion_accepted (natCfg [1] false true) rfl rfl
    (by intro j v hv; simp [natCfg])

/-- Counterexample to claim C2: with an empty expected list and
`expectComplete = false`, `expectError = false`, the matcher does NOT declare
success immediately — after invocation with no stream events delivered, the
deferred result is still unsettled (no `resolve` or `reject` has occurred). -/
theorem claim2_counterexample :
    (run (natCfg [] false false) []).settlements = []
      ∧ (run (natCfg [] false false) []).expectedStep = 0 := by
  constructor <;> rfl

/-- Claim C2 (corrected): with an empty expected list and both flags false,
the matcher does not settle at invocation time; the deferred result stays
pending until a stream event arrives (a completion event then resolves it). -/
theorem claim2_amended_pending_until_event (cfg : Config T)
    (hv : cfg.values = []) (_hc : cfg.expectComplete = false)
    (_he : cfg.expectError = false) :
    (run cfg []).settlements = []
      ∧ (run cfg [Event.complete]).settlements = [none] := by
  constructor
  · rfl
  · show (step cfg initState Event.complete).settlements = [none]
    rw [step_complete]
    rw [complete_success cfg initState (by simp [initState]) (by simp [initState, hv])]
    rfl

/-- Witness for the amended C2. -/
theorem claim2_amended_pending_until_event_witness :
    (run (natCfg [] false false) []).settlements = []
      ∧ (run (natCfg [] false false) [Event.complete]).settlements = [none] :=
  claim2_amended_pending_until_event (natCfg [] false false) rfl rfl rfl

/-- Claim C7 (confirmed): with both termination flags false and a non-empty
expected list, the matcher declares success exactly when the last expected
value is matched: feeding the expected values alone (no terminal event ever)
resolves the deferred result, while feeding all but the last leaves it
unsettled. -/
theorem claim7_success_without_termination (cfg : Config T)
    (hne : cfg.values ≠ [])
    (hc : cfg.expectComplete = false) (he : cfg.expectError = false)
    (hm : ∀ j v, cfg.values.get? j = some v → cfg.matcher v v = true) :
    (run cfg (cfg.values.map Event.next)).settlements = [none]
      ∧ (run cfg (cfg.values.dropLast.map Event.next)).settlements = [] := by
  obtain ⟨L, b, hLb⟩ : ∃ L b, cfg.values = L ++ [b] := by
    rcases List.eq_nil_or_concat cfg.values with h1 | ⟨L, b, h1⟩
    · exact absurd h1 hne
    · exact ⟨L, b, by simpa using h1⟩
  have hlen : cfg.values.length = L.length + 1 := by rw [hLb]; simp
  have hvb : cfg.values.get? L.length = some b := by
    rw [hLb]
    simp [List.get?_eq_getElem?, List.getElem?_concat_length]
  have hmL : ∀ j w e, L.get? j = some w → cfg.values.get? (0 + j) = some e →
      cfg.matcher w e = true := by
    intro j w e hw he2
    have hj : j < L.length := (List.get?_eq_some.mp hw).1
    have hw' : cfg.values.get? j = some w := by
      rw [hLb]
      simp only [List.get?_eq_getElem?] at hw ⊢
      rw [List.getElem?_append_left hj]
      exact hw
    rw [Nat.zero_add, hw'] at he2
    cases he2
    exact hm j w hw'
  have hpre := runFrom_nexts cfg L 0 initState rfl (by omega) hmL
    (Or.inr (Or.inr (by omega)))
  have hs1 : ({ initState with expectedStep := ((0 + L.length : Nat) : Int) }
      : MatchState).expectedStep = (L.length : Int) := by simp
  constructor
  · have hmap : cfg.values.map Event.next = L.map Event.next ++ [Event.next b] := by
      rw [hLb]; simp
    rw [run, hmap, runFrom_append, hpre, runFrom_cons, runFrom_nil, step_next]
    rw [next_matched_success cfg b _ b
      (by rw [hs1]; omega)
      (by rw [hs1, hlen]; push_cast; omega)
      (by rw [show ({ initState with expectedStep := ((0 + L.length : Nat) : Int) }
            : MatchState).expectedStep.toNat = L.length from by rw [hs1]; omega]
          exact hvb)
      (hm L.length b hvb)
      ⟨hc, he, by rw [hs1, hlen]; push_cast; omega⟩]
    simp [finalize, initState]
  · have hdrop : cfg.values.dropLast = L := by rw [hLb]; exact List.dropLast_concat
    rw [run, hdrop, hpre]
    simp [initState]

/-- Witness for C7: `S = [1, 2]`, both flags false, stream emits `1, 2` and
nothing else — resolved; after only `1`, still pending. -/
theorem claim7_success_without_termination_witness :
    (run (natCfg [1, 2] false false)
        ((natCfg [1, 2] false false).values.map Event.next)).settlements = [none]
      ∧ (run (natCfg [1, 2] false false)
        ((natCfg [1, 2] false false).values.dropLast.map Event.next)).settlements = [] :=
  claim7_success_without_termination (natCfg [1, 2] false false)
    (by simp [natCfg]) rfl rfl (by intro j v hv; simp [natCfg])

/-- Claim C5 (confirmed): if the first `i` stream values each satisfy the
comparator against the corresponding expected values (`i = ws.length`) and the
next arriving value `v` fails the comparator against `values[i]`, the matcher
rejects with exactly the message naming index `i`, the printed actual value
`v` and the printed expected value `values[i]`. -/
theorem claim5_mismatch_fails_with_message (cfg : Config T) (ws : List T) (v e : T)
    (hpre : ∀ j w ex, ws.get? j = some w → cfg.values.get? j = some ex →
      cfg.matcher w ex = true)
    (hlen : ws.length < cfg.values.length)
    (hget : cfg.values.get? ws.length = some e)
    (hmis : cfg.matcher v e = false) :
    (run cfg (ws.map Event.next ++ [Event.next v])).settlements
      = [some (mismatchMsg cfg (ws.length : Int) v e)] := by
  have hprefix := runFrom_nexts cfg ws 0 initState rfl (by omega)
    (by
      intro j w ex hw he2
      rw [Nat.zero_add] at he2
      exact hpre j w ex hw he2)
    (Or.inr (Or.inr (by omega)))
  rw [run, runFrom_append, hprefix, runFrom_cons, runFrom_nil, step_next]
  have hs1 : ({ initState with expectedStep := ((0 + ws.length : Nat) : Int) }
      : MatchState).expectedStep = (ws.length : Int) := by simp
  rw [next_mismatch cfg v _ e
    (by rw [hs1]; omega)
    (by rw [hs1]; omega)
    (by rw [show ({ initState with expectedStep := ((0 + ws.length : Nat) : Int) }
          : MatchState).expectedStep.toNat = ws.length from by rw [hs1]; omega]
        exact hget)
    hmis]
  rw [hs1]
  simp [finalize, initState]

/-- Witness for C5: the spec's concrete scenario — `S = [1, 2, 3]`, stream
emits `1, 2, 4`: rejection message names index `2`, actual `4`, expected `3`. -/
theorem claim5_mismatch_fails_with_message_witness :
    (run (natCfg [1, 2, 3] true false)
        (([1, 2] : List Nat).map Event.next ++ [Event.next 4])).settlements
      = [some (mismatchMsg (natCfg [1, 2, 3] true false)
          ((([1, 2] : List Nat).length : Nat) : Int) 4 3)] :=
  claim5_mismatch_fails_with_message (natCfg [1, 2, 3] true false) [1, 2] 4 3
    (by
      intro j w ex hw hex
      rcases j with _ | _ | j <;> simp [natCfg] at hw hex ⊢ <;> omega)
    (by decide) (by decide) (by decide)

/-- Claim C6 (confirmed): whenever a value `v` arrives while the matcher is
not finalized and the cursor is at or past `values.length`, the handler
finalizes with the "too many values" message carrying the printed value, and
that rejection is appended as the settlement. -/
theorem claim6_too_many_values (cfg : Config T) (v : T) (s : MatchState)
    (h1 : s.expectedStep ≠ -1)
    (h2 : (cfg.values.length : Int) ≤ s.expectedStep) :
    next cfg v s = finalize (some (tooManyMsg cfg v)) s
      ∧ (next cfg v s).settlements = s.settlements ++ [some (tooManyMsg cfg v)] := by
  refine ⟨next_tooMany cfg v s h1 h2, ?_⟩
  rw [next_tooMany cfg v s h1 h2]
  rfl

/-- Witness for C6: cursor at `1` with `S = [1]` already consumed; the extra
value `7` is rejected with the "too many values" message. -/
theorem claim6_too_many_values_witness :
    next (natCfg [1] true false) 7 (stateAt 1)
        = finalize (some (tooManyMsg (natCfg [1] true false) 7)) (stateAt 1)
      ∧ (next (natCfg [1] true false) 7 (stateAt 1)).settlements
        = (stateAt 1).settlements ++ [some (tooManyMsg (natCfg [1] true false) 7)] :=
  claim6_too_many_values (natCfg [1] true false) 7 (stateAt 1)
    (by decide) (by decide)

/-- Claim C8 (confirmed): when an error event arrives and the matcher is not
finalized, the handler succeeds exactly when `expectError` is true and the
cursor equals `values.length`; in every other case it rejects with the
"errored unexpectedly before emission index cursor" message carrying the
error's description. -/
theorem claim8_error_terminal (cfg : Config T) (err : String) (s : MatchState)
    (hfin : s.expectedStep ≠ -1) :
    error cfg err s
      = if cfg.expectError = true ∧ s.expectedStep = (cfg.values.length : Int)
        then finalize none s
        else finalize (some (erroredMsg s.expectedStep err)) s := by
  by_cases h2 : cfg.expectError = true ∧ s.expectedStep = (cfg.values.length : Int)
  · rw [if_pos h2]
    exact error_success cfg err s hfin h2
  · rw [if_neg h2]
    exact error_failure cfg err s hfin h2

/-- Witness for C8: with the default flags (`expectError = false`), an error
arriving with the cursor at `1` rejects with the errored-unexpectedly
message. -/
theorem claim8_error_terminal_witness :
    error (natCfg [1, 2] true false) "boom" (stateAt 1)
      = if (natCfg [1, 2] true false).expectError = true
          ∧ (stateAt 1).expectedStep = (((natCfg [1, 2] true false).values.length : Nat) : Int)
        then finalize none (stateAt 1)
        else finalize (some (erroredMsg (stateAt 1).expectedStep "boom")) (stateAt 1) :=
  claim8_error_terminal (natCfg [1, 2] true false) "boom" (stateAt 1) (by decide)

end MatchObs
